import Mathlib

set_option maxHeartbeats 1000000

namespace NetSQLite

/-- JSON values as they travel on the wire between client and server.
Numbers are split into integers and non-integer numerals; a float is
carried as its decimal text, exactly as in the JSON wire format (the
standard-library JSON encoder/decoder, an external collaborator, maps a
float to its shortest round-tripping decimal text and back). -/
inductive JVal where
  | jnull
  | jbool (b : Bool)
  | jint (n : Int)
  | jfloat (text : String)
  | jstr (s : String)
  | jarr (xs : List JVal)
  | jobj (kvs : List (String × JVal))

/-- Python runtime values that the program hands to `_serialize` or gets
back from `_deserialize`: scalars, sequences (lists and tuples), string
keyed dictionaries and exception objects (carrying the type name and the
argument tuple). Floats are uninterpreted decimal-text atoms, as in
`JVal`. -/
inductive PyVal where
  | none
  | bool (b : Bool)
  | int (n : Int)
  | float (text : String)
  | str (s : String)
  | list (xs : List PyVal)
  | tuple (xs : List PyVal)
  | dict (kvs : List (String × PyVal))
  | exc (ty : String) (args : List PyVal)

/-- Single-quote character, used by Python repr of strings. -/
def sq : String := String.singleton (Char.ofNat 39)

mutual

/-- Python `repr` of a value, as far as the model needs it (it is the
behaviour of `str`/`repr` on containers and is what the `default=str` fallback of `json.dumps` applies to for nested exception objects). -/
def pyRepr : PyVal → String
  | .none => "None"
  | .bool b => cond b "True" "False"
  | .int n => toString n
  | .float t => t
  | .str s => sq ++ s ++ sq
  | .list xs => "[" ++ pyReprSep xs ++ "]"
  | .tuple [x] => "(" ++ pyRepr x ++ ",)"
  | .tuple xs => "(" ++ pyReprSep xs ++ ")"
  | .dict kvs => "\x7b" ++ pyReprKVs kvs ++ "\x7d"
  | .exc ty args => ty ++ "(" ++ pyReprSep args ++ ")"

/-- Comma-separated `repr`s of the elements of a sequence. -/
def pyReprSep : List PyVal → String
  | [] => ""
  | [x] => pyRepr x
  | x :: xs => pyRepr x ++ ", " ++ pyReprSep xs

/-- Comma-separated `repr`s of the entries of a dictionary. -/
def pyReprKVs : List (String × PyVal) → String
  | [] => ""
  | [(k, v)] => sq ++ k ++ sq ++ ": " ++ pyRepr v
  | (k, v) :: kvs => sq ++ k ++ sq ++ ": " ++ pyRepr v ++ ", " ++ pyReprKVs kvs

end

/-- Python `str` of a value: identical to `repr` except on strings (no
quotes) and exceptions (`str` of the single argument, or the `repr` of
the argument tuple). Used by `hmac.compare_digest(str .., str ..)`, by
f-string interpolation and by `json.dumps(.., default=str)`. -/
def pyStr : PyVal → String
  | .str s => s
  | .exc _ [] => ""
  | .exc _ [a] => pyStr a
  | .exc _ args => pyRepr (.tuple args)
  | v => pyRepr v

/-- Python truthiness of a value (`if not params`, and the `_exception` entry fetched by `obj.get` used as a condition). A float atom is uninterpreted text, so only the
canonical zero spellings are treated as falsy. -/
def truthy : PyVal → Bool
  | .none => false
  | .bool b => b
  | .int n => n != 0
  | .float t => !(t = "0.0" || t = "-0.0" || t = "0")
  | .str s => s != ""
  | .list xs => !xs.isEmpty
  | .tuple xs => !xs.isEmpty
  | .dict kvs => !kvs.isEmpty
  | .exc _ _ => true

/-- Python `==` between a value and a string literal (the first element of `auth_msg` compared against `auth`, and `response` compared against `db_name`): true only for an equal string. -/
def isStrEq (v : PyVal) (s : String) : Bool :=
  match v with
  | .str t => t = s
  | _ => false

/-- Python `isinstance(v, (tuple, list))`, returning the elements. -/
def seqItems : PyVal → Option (List PyVal)
  | .list xs => some xs
  | .tuple xs => some xs
  | _ => Option.none

/-- Whether a value is an exception object (`isinstance(v, Exception)`). -/
def isExc : PyVal → Bool
  | .exc _ _ => true
  | _ => false

mutual

/-- Encoding of a Python value as JSON, as `json.dumps(obj, default=str)`
performs it: scalars map to the corresponding JSON scalars, lists and
tuples both map to arrays, dictionaries map to objects, and any object
JSON cannot represent (a nested exception) is converted by `default=str`. -/
def pyToJson : PyVal → JVal
  | .none => .jnull
  | .bool b => .jbool b
  | .int n => .jint n
  | .float t => .jfloat t
  | .str s => .jstr s
  | .list xs => .jarr (pyToJsonList xs)
  | .tuple xs => .jarr (pyToJsonList xs)
  | .dict kvs => .jobj (pyToJsonKVs kvs)
  | .exc ty args => .jstr (pyStr (.exc ty args))

/-- Elementwise `pyToJson` over a sequence. -/
def pyToJsonList : List PyVal → List JVal
  | [] => []
  | x :: xs => pyToJson x :: pyToJsonList xs

/-- Entrywise `pyToJson` over a dictionary. -/
def pyToJsonKVs : List (String × PyVal) → List (String × JVal)
  | [] => []
  | (k, v) :: kvs => (k, pyToJson v) :: pyToJsonKVs kvs

end

mutual

/-- Decoding of a JSON value into a Python value, as `json.loads` performs
it: arrays become lists (never tuples), objects become dictionaries. -/
def jsonToPy : JVal → PyVal
  | .jnull => .none
  | .jbool b => .bool b
  | .jint n => .int n
  | .jfloat t => .float t
  | .jstr s => .str s
  | .jarr xs => .list (jsonToPyList xs)
  | .jobj kvs => .dict (jsonToPyKVs kvs)

/-- Elementwise `jsonToPy` over an array. -/
def jsonToPyList : List JVal → List PyVal
  | [] => []
  | x :: xs => jsonToPy x :: jsonToPyList xs

/-- Entrywise `jsonToPy` over an object. -/
def jsonToPyKVs : List (String × JVal) → List (String × PyVal)
  | [] => []
  | (k, v) :: kvs => (k, jsonToPy v) :: jsonToPyKVs kvs

end

/-- Errors raised while decoding: `json.loads` failing on bytes that are
not valid JSON (or bytes that are not valid UTF-8), `KeyError` from
the `type` / `args` subscripts, `IndexError`/`TypeError`/`KeyError` from the subscript `args[0]`, and `EOFError` from a receive on a closed connection. -/
inductive DErr where
  | jsonError
  | keyError (k : String)
  | indexError
  | typeError
  | eofError
deriving DecidableEq, Repr

/-- Python `d.get(k)` on a dictionary built by `json.loads`: the last
occurrence of a duplicated key wins; absent key yields `None`. -/
def pyGet (kvs : List (String × PyVal)) (k : String) : Option PyVal :=
  (kvs.reverse.find? (fun p => p.1 = k)).map (fun p => p.2)

/-- Python `d.get(k)` with its `None` default materialised. -/
def pyGetD (kvs : List (String × PyVal)) (k : String) : PyVal :=
  (pyGet kvs k).getD .none

/-- Python `v[0]`: first element of a list, first character of a string
(as a one-character string), `KeyError` on a dictionary (integer key is
absent since JSON keys are strings), `TypeError` otherwise. -/
def pyIndex0 : PyVal → Except DErr PyVal
  | .list [] => .error .indexError
  | .list (x :: _) => .ok x
  | .tuple [] => .error .indexError
  | .tuple (x :: _) => .ok x
  | .str s =>
    match s.data with
    | [] => .error .indexError
    | c :: _ => .ok (.str (String.singleton c))
  | .dict _ => .error (.keyError "0")
  | _ => .error .typeError

/-- Serialize object to JSON bytes, avoiding pickle vulnerability
(function `_serialize`): an exception is encoded as the tagged record
`{_exception: true, type: type(obj).__name__, args: obj.args}`; every
other value goes through plain `json.dumps(obj, default=str)`. The
byte-rendering of the resulting JSON value is the standard library default. -/
def _serialize (obj : PyVal) : JVal :=
  match obj with
  | .exc ty args =>
    .jobj [("_exception", .jbool true), ("type", .jstr ty),
           ("args", .jarr (pyToJsonList args))]
  | v => pyToJson v

/-- Deserialize JSON bytes to object (function `_deserialize`), given the
JSON value the bytes parse to: if the decoded object is a dictionary with
a truthy `_exception` entry, reconstruct a generic exception
a generic `Exception` whose message interpolates the `type` entry, a colon and the first element of a truthy `args` entry (the empty string for a falsy one);
otherwise return the decoded object unchanged. Exceptions raised on the
way out (`KeyError` on a missing field, `IndexError`/`TypeError` from the
subscript) surface as errors. -/
def deserializeJson (j : JVal) : Except DErr PyVal :=
  match jsonToPy j with
  | .dict kvs =>
    if truthy (pyGetD kvs "_exception") then
      match pyGet kvs "type" with
      | Option.none => .error (.keyError "type")
      | some ty =>
        match pyGet kvs "args" with
        | Option.none => .error (.keyError "args")
        | some args =>
          match (if truthy args then pyIndex0 args else .ok (.str "")) with
          | .error d => .error d
          | .ok tail =>
            .ok (.exc "Exception" [.str (pyStr ty ++ ": " ++ pyStr tail)])
    else .ok (.dict kvs)
  | v => .ok v

/-- Bytes-level `_deserialize`: the received bytes either parse as a JSON
value (`some j`) or do not (`Option.none`, in which case `json.loads`
raises a decode error which `_deserialize` propagates). -/
def _deserialize (parsed : Option JVal) : Except DErr PyVal :=
  match parsed with
  | Option.none => .error .jsonError
  | some j => deserializeJson j

/-- The embedded SQL engine (`sqlite3`, an external collaborator),
consumed as a black box: applied to the query and parameter values the
server passes it, it either returns the fetched rows or raises an
engine exception carrying a type name and arguments. -/
def EngineFn : Type :=
  PyVal → PyVal → Except (String × List PyVal) (List (List PyVal))

/-- State of one handling task of `NetSQLiteServer.handle_client`:
still waiting for the authentication message (when an auth token is
configured, carrying that token), in the ordinary request loop, or the
connection has been closed. -/
inductive SrvState where
  | awaitingAuth (secret : String)
  | ready
  | closed
deriving DecidableEq, Repr

/-- Initial handling-task state: the authentication block runs iff
`self.auth_token is not None`. -/
def initState (secret : Option String) : SrvState :=
  match secret with
  | some s => .awaitingAuth s
  | Option.none => .ready

/-- Body of `NetSQLiteServer.execute` plus the surrounding dispatch in
the request loop of `handle_client`: the reply value the server serializes for
one decoded message. A falsy `params` is replaced by the empty tuple, the
rows of the engine come back as `[list(row) for row in res]`, an engine
exception is caught by the per-request handler and returned as the reply,
and unrecognized or malformed messages yield the corresponding error
replies. -/
def dispatch (engine : EngineFn) (dbPath : String) (message : PyVal) : PyVal :=
  match seqItems message with
  | Option.none => .exc "Exception" [.str "Invalid message format"]
  | some [] => .exc "Exception" [.str "Invalid message format"]
  | some (m0 :: rest) =>
    if isStrEq m0 "execute" then
      match rest with
      | q :: ps :: _ =>
        match engine q (if truthy ps then ps else .tuple []) with
        | .ok rows => .list (rows.map PyVal.list)
        | .error (ty, args) => .exc ty args
      | _ => .exc "Exception" [.str "execute requires query and params"]
    else if isStrEq m0 "target_database" then .str dbPath
    else if isStrEq m0 "ping" then .str "pong"
    else .exc "Exception" [.str ("Unknown method: " ++ pyStr m0)]

/-- One step of `handle_client` on a decoded incoming message: the reply
the server sends (if any) and the next task state. In the authentication
phase a message that is not a sequence of length at least two starting
with `auth` draws `Authentication required` and a close; a presented
token failing `hmac.compare_digest(str(auth_msg[1]), str(self.auth_token))`
draws `Authentication failed` and a close; a matching token draws
`authenticated`. In the ready state every message draws the `dispatch`
reply and the loop continues. -/
def serverStep (engine : EngineFn) (dbPath : String) :
    SrvState → PyVal → Option PyVal × SrvState
  | .closed, _ => (Option.none, .closed)
  | .awaitingAuth secret, msg =>
    match seqItems msg with
    | some (m0 :: m1 :: _) =>
      if isStrEq m0 "auth" then
        if pyStr m1 = secret then (some (.str "authenticated"), .ready)
        else (some (.exc "Exception" [.str "Authentication failed"]), .closed)
      else (some (.exc "Exception" [.str "Authentication required"]), .closed)
    | _ => (some (.exc "Exception" [.str "Authentication required"]), .closed)
  | .ready, msg => (some (dispatch engine dbPath msg), .ready)

/-- A handling task run over a finite stream of incoming frames (each
frame being the parse of the received bytes, `Option.none` when the bytes
are not valid JSON), returning the frames the server sends back. A frame
that fails to decode raises out of the request loop (only
`EOFError`/`ConnectionResetError`/`BrokenPipeError` are caught there), so
the task ends and the connection is closed without a reply; likewise
nothing after a close is processed. -/
def serverRun (engine : EngineFn) (dbPath : String) :
    SrvState → List (Option JVal) → List JVal
  | _, [] => []
  | .closed, _ => []
  | st, f :: fs =>
    match _deserialize f with
    | .error _ => []
    | .ok msg =>
      match serverStep engine dbPath st msg with
      | (some r, st2) => _serialize r :: serverRun engine dbPath st2 fs
      | (Option.none, st2) => serverRun engine dbPath st2 fs

/-- One client-to-server round trip: the client serializes a message, the
server decodes it, steps, and the client decodes the reply. A reply-less
step (only possible on a closed connection) surfaces to the client as
`EOFError` from `recv_bytes`. -/
def exchange (engine : EngineFn) (dbPath : String) (st : SrvState)
    (msg : PyVal) : Except DErr PyVal × SrvState :=
  match _deserialize (some (_serialize msg)) with
  | .error d => (.error d, st)
  | .ok m =>
    match serverStep engine dbPath st m with
    | (some r, st2) => (_deserialize (some (_serialize r)), st2)
    | (Option.none, st2) => (.error .eofError, st2)

/-- Outcome of one iteration of the port loop of `connect` against a live
server on that port: proceed with this connection, raise out of
`connect`, or `continue` to the next port. -/
inductive AttemptOutcome where
  | ok
  | raised (e : PyVal)
  | skip

/-- Tail of the per-port body of `connect` after any authentication: send
a `target_database` request; if the response differs from `db_name` close
and move to the next port; otherwise send a `ping`, discard its response,
and use this connection. -/
def attemptTail (engine : EngineFn) (dbPath : String) (dbName : String)
    (st : SrvState) : AttemptOutcome :=
  match exchange engine dbPath st (.tuple [.str "target_database"]) with
  | (.error _, _) => .raised (.exc "EOFError" [])
  | (.ok resp, st2) =>
    if isStrEq resp dbName then
      match exchange engine dbPath st2 (.tuple [.str "ping"]) with
      | (.error _, _) => .raised (.exc "EOFError" [])
      | (.ok _, _) => .ok
    else .skip

/-- One iteration of the port loop of `connect` against a live server
configured with `secret` and serving `dbPath`: when the caller supplied an
auth token, first send the `auth` request carrying it and raise the response if it
decodes to an exception; then verify the target database and ping. -/
def attempt (secret : Option String) (dbPath : String) (engine : EngineFn)
    (token : Option String) (dbName : String) : AttemptOutcome :=
  let st := initState secret
  match token with
  | Option.none => attemptTail engine dbPath dbName st
  | some t =>
    match exchange engine dbPath st (.tuple [.str "auth", .str t]) with
    | (.error _, _) => .raised (.exc "EOFError" [])
    | (.ok resp, st1) =>
      if isExc resp then .raised resp
      else attemptTail engine dbPath dbName st1

/-- State of one port of the scanned range: nothing listens there
(connecting raises `ConnectionRefusedError`), or a live server configured
with the given secret, database path and engine accepts. -/
inductive PortState where
  | free
  | busy (secret : Option String) (dbPath : String) (engine : EngineFn)

/-- Result of `connect`: a connection to an existing server at the given
offset in the scanned range, a connection to a freshly spawned server at
the given offset (recording the auth token the new server was configured
with), an exception raised out of `connect`, or the final
`RuntimeError("Could not create connection ...")` after exhausting the
range. -/
inductive ConnOutcome where
  | connectedExisting (idx : Nat)
  | spawnedNew (idx : Nat) (spawnedSecret : Option String)
  | raised (e : PyVal)
  | noSlot

/-- The port loop of `connect` over the states of the scanned ports: a
free port raises `ConnectionRefusedError` on the connect attempt, which
is caught and answered by spawning a server for `db_name` (configured
with the auth token of the caller) on that port and polling it; polling the
just-spawned server is modelled as succeeding. On a busy port the
`attempt` outcome decides between returning, raising, and `continue`. -/
def connectFrom (token : Option String) (dbName : String) :
    Nat → List PortState → ConnOutcome
  | _, [] => .noSlot
  | idx, .free :: _ => .spawnedNew idx token
  | idx, .busy secret dbPath engine :: rest =>
    match attempt secret dbPath engine token dbName with
    | .ok => .connectedExisting idx
    | .raised e => .raised e
    | .skip => connectFrom token dbName (idx + 1) rest

/-- The `connect` entry point over an environment listing the state of
each port of the scanned range (`STARTPORT + offset` for
`offset in range(10)`). -/
def connect (token : Option String) (dbName : String)
    (env : List PortState) : ConnOutcome :=
  connectFrom token dbName 0 env

/-- Result of `__poll`: a verified connection; the `RuntimeError` raised
when a reached server reports a different database; an authentication
exception re-raised out of the poll; the final
`RuntimeError("Giving up waiting ...")` once the waited time reaches the
timeout; an `EOFError`-style failure on a dropped exchange; or the
modelling artifact of the attempt trace running out before the timeout. -/
inductive PollOutcome where
  | gotConn
  | raisedWrongDb (resp : PyVal)
  | raisedAuth (e : PyVal)
  | raisedDropped
  | spawnTimeout (total : ℚ)
  | outOfTrace

/-- The polling loop of `__poll` over a trace of per-attempt port states:
while the waited time is below the timeout, a refused connection sleeps
`wait` seconds and retries with `wait = min(wait * 1.5, 1.0)`; a reached
server is authenticated (an exception response is re-raised, uncaught by
the `except (ConnectionRefusedError, OSError)` handler) and asked for its
target database, a mismatch raising `RuntimeError` immediately (likewise
uncaught). Reaching the timeout raises the giving-up `RuntimeError`. -/
def pollFrom (token : Option String) (dbName : String) (timeout : ℚ)
    (trace : List PortState) (totalWaited wait : ℚ) : PollOutcome :=
  if totalWaited < timeout then
      match trace with
      | [] => .outOfTrace
      | .free :: rest =>
        pollFrom token dbName timeout rest (totalWaited + wait)
          (min (wait * (3 / 2)) 1)
      | .busy secret dbPath engine :: _ =>
        let st := initState secret
        let afterAuth : Except PollOutcome SrvState :=
          match token with
          | Option.none => .ok st
          | some t =>
            match exchange engine dbPath st (.tuple [.str "auth", .str t]) with
            | (.error _, _) => .error .raisedDropped
            | (.ok resp, st1) =>
              if isExc resp then .error (.raisedAuth resp) else .ok st1
        match afterAuth with
        | .error out => out
        | .ok st1 =>
          match exchange engine dbPath st1 (.tuple [.str "target_database"]) with
          | (.error _, _) => .raisedDropped
          | (.ok resp, _) =>
            if isStrEq resp dbName then .gotConn else .raisedWrongDb resp
  else .spawnTimeout totalWaited

/-- What `conn.recv_bytes()` yields inside `_send_receive`: the stream
dropped (`EOFError`/`ConnectionResetError`/`BrokenPipeError`), or a frame
whose bytes parse to the given JSON value (`Option.none` when they are
not valid JSON). -/
inductive RecvEvent where
  | dropped
  | frame (parsed : Option JVal)

/-- Result of `NetSQLiteConnection._send_receive`: the
`ConnectionError("Connection to server lost: ...")` raised on a dropped
stream, the decoded exception re-raised by `raise response`, a decode
error propagating out, or the response returned to the caller. -/
inductive SRResult where
  | connLost
  | raisedErr (e : PyVal)
  | decodeRaised (d : DErr)
  | returned (v : PyVal)

/-- `NetSQLiteConnection._send_receive`: send the serialized message,
receive and deserialize the response, re-raise an exception response,
return anything else; `EOFError`/`ConnectionResetError`/`BrokenPipeError`
anywhere in the exchange becomes a `ConnectionError`. -/
def sendReceive (ev : RecvEvent) : SRResult :=
  match ev with
  | .dropped => .connLost
  | .frame parsed =>
    match _deserialize parsed with
    | .error d => .decodeRaised d
    | .ok v => if isExc v then .raisedErr v else .returned v

/-- `NetSQLiteConnection.execute` on a live connection (the liveness check
passed or `check=False`): a falsy `params` is replaced by the empty tuple,
the `execute` message carrying the query and parameters goes through
`_send_receive`, and
the server end is the handling task in its ready state. -/
def clientExecute (engine : EngineFn) (dbPath : String) (query : String)
    (params : PyVal) : SRResult :=
  let sentParams := if truthy params then params else .tuple []
  let msg : PyVal := .tuple [.str "execute", .str query, sentParams]
  match _deserialize (some (_serialize msg)) with
  | .error _ => .connLost
  | .ok m =>
    match serverStep engine dbPath .ready m with
    | (some r, _) => sendReceive (.frame (some (_serialize r)))
    | (Option.none, _) => sendReceive .dropped

/-- Whether a value is one of the scalars the codec documents as
supported: strings, integers (within the safe range of the codec — the model has unbounded integers, as Python does), floats, booleans, null. -/
def isScalar : PyVal → Bool
  | .none => true
  | .bool _ => true
  | .int _ => true
  | .float _ => true
  | .str _ => true
  | _ => false

mutual

/-- The values for which the spec documents the round-trip: scalars and
nested sequences (lists and tuples) of them. -/
def isRTSupported : PyVal → Bool
  | .list xs => allRTSupported xs
  | .tuple xs => allRTSupported xs
  | .dict _ => false
  | .exc _ _ => false
  | _ => true

/-- All elements of a sequence are round-trip supported. -/
def allRTSupported : List PyVal → Bool
  | [] => true
  | x :: xs => isRTSupported x && allRTSupported xs

end

mutual

/-- The wire image of a value: tuples become sequences (lists), order
preserved; everything else is untouched. -/
def stripTuples : PyVal → PyVal
  | .list xs => .list (stripTuplesList xs)
  | .tuple xs => .list (stripTuplesList xs)
  | v => v

/-- Elementwise `stripTuples`. -/
def stripTuplesList : List PyVal → List PyVal
  | [] => []
  | x :: xs => stripTuples x :: stripTuplesList xs

end

mutual

/-- No exception object occurs anywhere inside the value. -/
def excFree : PyVal → Bool
  | .none => true
  | .bool _ => true
  | .int _ => true
  | .float _ => true
  | .str _ => true
  | .list xs => excFreeList xs
  | .tuple xs => excFreeList xs
  | .dict kvs => excFreeKVs kvs
  | .exc _ _ => false

/-- Elementwise `excFree`. -/
def excFreeList : List PyVal → Bool
  | [] => true
  | x :: xs => excFree x && excFreeList xs

/-- Entrywise `excFree`. -/
def excFreeKVs : List (String × PyVal) → Bool
  | [] => true
  | (_, v) :: kvs => excFree v && excFreeKVs kvs

end

/-- Whether `_send_receive` raised (anything) rather than returning. -/
def raisesB : SRResult → Bool
  | .returned _ => false
  | _ => true

/-- A trivial concrete engine, used to instantiate theorems at concrete
inputs on code paths that never consult the engine. -/
def engNone : EngineFn := fun _ _ => .ok []

mutual

/-- Decoding inverts encoding on round-trip supported values, up to
tuples becoming lists. -/
theorem jsonToPy_pyToJson (v : PyVal) (h : isRTSupported v = true) :
    jsonToPy (pyToJson v) = stripTuples v := by
  cases v with
  | none => rfl
  | bool b => rfl
  | int n => rfl
  | float t => rfl
  | str s => rfl
  | list xs =>
    have hx : allRTSupported xs = true := by simpa [isRTSupported] using h
    simp [pyToJson, jsonToPy, stripTuples, jsonToPyList_pyToJsonList xs hx]
  | tuple xs =>
    have hx : allRTSupported xs = true := by simpa [isRTSupported] using h
    simp [pyToJson, jsonToPy, stripTuples, jsonToPyList_pyToJsonList xs hx]
  | dict kvs => exact absurd h (by simp [isRTSupported])
  | exc ty args => exact absurd h (by simp [isRTSupported])

/-- Elementwise version of `jsonToPy_pyToJson`. -/
theorem jsonToPyList_pyToJsonList (xs : List PyVal)
    (h : allRTSupported xs = true) :
    jsonToPyList (pyToJsonList xs) = stripTuplesList xs := by
  cases xs with
  | nil => rfl
  | cons x xs =>
    have h1 : isRTSupported x = true ∧ allRTSupported xs = true := by
      simpa [allRTSupported, Bool.and_eq_true] using h
    simp [pyToJsonList, jsonToPyList, stripTuplesList,
      jsonToPy_pyToJson x h1.1, jsonToPyList_pyToJsonList xs h1.2]

end

/-- Encoding a round-trip supported value and decoding it back yields the
value with tuples turned into lists. -/
theorem roundtrip_ok (v : PyVal) (h : isRTSupported v = true) :
    _deserialize (some (_serialize v)) = .ok (stripTuples v) := by
  cases v with
  | none => rfl
  | bool b => rfl
  | int n => rfl
  | float t => rfl
  | str s => rfl
  | list xs =>
    have hx : allRTSupported xs = true := by simpa [isRTSupported] using h
    simp [_deserialize, _serialize, deserializeJson, pyToJson, jsonToPy,
      stripTuples, jsonToPyList_pyToJsonList xs hx]
  | tuple xs =>
    have hx : allRTSupported xs = true := by simpa [isRTSupported] using h
    simp [_deserialize, _serialize, deserializeJson, pyToJson, jsonToPy,
      stripTuples, jsonToPyList_pyToJsonList xs hx]
  | dict kvs => exact absurd h (by simp [isRTSupported])
  | exc ty args => exact absurd h (by simp [isRTSupported])

/-- A scalar is round-trip supported. -/
theorem isRTSupported_of_scalar (c : PyVal) (h : isScalar c = true) :
    isRTSupported c = true := by
  cases c <;> simp_all [isScalar, isRTSupported]

/-- A scalar has no tuples to strip. -/
theorem stripTuples_scalar (c : PyVal) (h : isScalar c = true) :
    stripTuples c = c := by
  cases c <;> simp_all [isScalar, stripTuples]

/-- A list of scalars is elementwise round-trip supported. -/
theorem allRTSupported_of_scalars (ps : List PyVal)
    (h : ∀ c ∈ ps, isScalar c = true) : allRTSupported ps = true := by
  induction ps with
  | nil => rfl
  | cons x xs ih =>
    simp only [allRTSupported, Bool.and_eq_true]
    exact ⟨isRTSupported_of_scalar x (h x (by simp)),
      ih (fun c hc => h c (by simp [hc]))⟩

/-- Stripping tuples fixes a list of scalars. -/
theorem stripTuplesList_scalars (ps : List PyVal)
    (h : ∀ c ∈ ps, isScalar c = true) : stripTuplesList ps = ps := by
  induction ps with
  | nil => rfl
  | cons x xs ih =>
    simp only [stripTuplesList]
    rw [stripTuples_scalar x (h x (by simp)),
      ih (fun c hc => h c (by simp [hc]))]

/-- Rows of scalars are elementwise round-trip supported. -/
theorem allRTSupported_rows (rows : List (List PyVal))
    (h : ∀ r ∈ rows, ∀ c ∈ r, isScalar c = true) :
    allRTSupported (rows.map PyVal.list) = true := by
  induction rows with
  | nil => rfl
  | cons r rows ih =>
    simp only [List.map, allRTSupported, Bool.and_eq_true, isRTSupported]
    exact ⟨allRTSupported_of_scalars r (h r (by simp)),
      ih (fun q hq => h q (by simp [hq]))⟩

/-- Stripping tuples fixes rows of scalars. -/
theorem stripTuplesList_rows (rows : List (List PyVal))
    (h : ∀ r ∈ rows, ∀ c ∈ r, isScalar c = true) :
    stripTuplesList (rows.map PyVal.list) = rows.map PyVal.list := by
  induction rows with
  | nil => rfl
  | cons r rows ih =>
    simp only [List.map, stripTuplesList, stripTuples]
    rw [stripTuplesList_scalars r (h r (by simp)),
      ih (fun q hq => h q (by simp [hq]))]

mutual

/-- `json.loads` never produces an exception object anywhere in the
decoded value. -/
theorem excFree_jsonToPy (j : JVal) : excFree (jsonToPy j) = true := by
  cases j with
  | jnull => rfl
  | jbool b => rfl
  | jint n => rfl
  | jfloat t => rfl
  | jstr s => rfl
  | jarr xs => simp [jsonToPy, excFree, excFreeList_jsonToPyList xs]
  | jobj kvs => simp [jsonToPy, excFree, excFreeKVs_jsonToPyKVs kvs]

/-- Elementwise version of `excFree_jsonToPy`. -/
theorem excFreeList_jsonToPyList (xs : List JVal) :
    excFreeList (jsonToPyList xs) = true := by
  cases xs with
  | nil => rfl
  | cons x xs =>
    simp [jsonToPyList, excFreeList, excFree_jsonToPy x,
      excFreeList_jsonToPyList xs]

/-- Entrywise version of `excFree_jsonToPy`. -/
theorem excFreeKVs_jsonToPyKVs (kvs : List (String × JVal)) :
    excFreeKVs (jsonToPyKVs kvs) = true := by
  cases kvs with
  | nil => rfl
  | cons kv kvs =>
    simp [jsonToPyKVs, excFreeKVs, excFree_jsonToPy kv.2,
      excFreeKVs_jsonToPyKVs kvs]

end

/-- `json.loads` never produces a top-level exception object. -/
theorem isExc_jsonToPy (j : JVal) : isExc (jsonToPy j) = false := by
  cases j <;> rfl


/-- A closed handling task sends nothing more. -/
theorem serverRun_closed (engine : EngineFn) (dbPath : String)
    (fs : List (Option JVal)) : serverRun engine dbPath .closed fs = [] := by
  cases fs <;> rfl

/-- Shape of every successfully decoded value: either plain data with no
error value inside, or the one generic error value with a single string
message. -/
theorem deserializeJson_ok_shape (j : JVal) (v : PyVal)
    (h : deserializeJson j = .ok v) :
    (isExc v = false ∧ excFree v = true) ∨
    (∃ msg : String, v = .exc "Exception" [.str msg]) := by
  unfold deserializeJson at h
  split at h
  next kvs heq =>
    split at h
    · split at h
      · simp at h
      · split at h
        · simp at h
        · split at h
          · simp at h
          · injection h with h1
            exact Or.inr ⟨_, h1.symm⟩
    · injection h with h1
      subst h1
      have h2 := excFree_jsonToPy j
      rw [heq] at h2
      exact Or.inl ⟨rfl, h2⟩
  next w hne =>
    injection h with h1
    subst h1
    have h2 := excFree_jsonToPy j
    have h3 := isExc_jsonToPy j
    exact Or.inl ⟨h3, h2⟩


/-- Claim C3, counterexample: the codec does not round-trip error values.
Encoding the error value `Exception("boom")` and decoding it back yields
an error value carrying the message `"Exception: boom"`, not the original
message `"boom"`. -/
theorem C3_counterexample :
    _deserialize (some (_serialize (.exc "Exception" [.str "boom"]))) =
      .ok (.exc "Exception" [.str "Exception: boom"]) ∧
    _deserialize (some (_serialize (.exc "Exception" [.str "boom"]))) ≠
      .ok (.exc "Exception" [.str "boom"]) := by
  refine ⟨rfl, ?_⟩
  have hval : _deserialize (some (_serialize (.exc "Exception" [.str "boom"]))) =
      .ok (.exc "Exception" [.str "Exception: boom"]) := rfl
  rw [hval]
  intro h
  injection h with h1
  injection h1 with h2 h3
  injection h3 with h4 h5
  injection h4 with h6
  exact absurd h6 (by decide)

/-- Claim C3, amended: decoding the encoding of a supported plain value
(scalars, nested sequences) yields the value back up to tuples becoming
lists; decoding the encoding of an error value yields an error value of
the generic type whose message is the original type name and first
argument joined by a colon, not the original message itself. -/
theorem C3_roundtrip_amended :
    (∀ v : PyVal, isRTSupported v = true →
      _deserialize (some (_serialize v)) = .ok (stripTuples v)) ∧
    (∀ ty msg : String,
      _deserialize (some (_serialize (.exc ty [.str msg]))) =
        .ok (.exc "Exception" [.str (ty ++ ": " ++ msg)])) := by
  refine ⟨roundtrip_ok, ?_⟩
  intro ty msg
  rfl

/-- Witness for `C3_roundtrip_amended` at concrete inputs. -/
theorem C3_roundtrip_amended_witness :
    isRTSupported (.list [.int 3, .tuple [.str "a"], .none]) = true ∧
    _deserialize (some (_serialize (.list [.int 3, .tuple [.str "a"], .none]))) =
      .ok (.list [.int 3, .list [.str "a"], .none]) ∧
    _deserialize (some (_serialize (.exc "ValueError" [.str "oops"]))) =
      .ok (.exc "Exception" [.str "ValueError: oops"]) :=
  ⟨rfl, C3_roundtrip_amended.1 (.list [.int 3, .tuple [.str "a"], .none]) rfl,
    C3_roundtrip_amended.2 "ValueError" "oops"⟩

/-- Claim C6: against a server with a configured secret, a first message
carrying a mismatching token draws exactly one reply (the
`Authentication failed` error), the handling task closes the connection,
and no later frame on that connection is processed, whatever those
frames are. -/
theorem C6_auth_mismatch (engine : EngineFn) (dbPath s t : String)
    (fs : List (Option JVal)) (h : t ≠ s) :
    serverRun engine dbPath (initState (some s))
      (some (_serialize (.tuple [.str "auth", .str t])) :: fs) =
      [_serialize (.exc "Exception" [.str "Authentication failed"])] ∧
    serverStep engine dbPath (initState (some s)) (.list [.str "auth", .str t]) =
      (some (.exc "Exception" [.str "Authentication failed"]), .closed) := by
  constructor
  · simp [serverRun, _deserialize, _serialize, deserializeJson, pyToJson,
      pyToJsonList, jsonToPy, jsonToPyList, serverStep, initState, seqItems,
      isStrEq, pyStr, h, serverRun_closed]
  · simp [serverStep, initState, seqItems, isStrEq, pyStr, h]

/-- Witness for `C6_auth_mismatch` at concrete inputs. -/
theorem C6_auth_mismatch_witness :
    serverRun engNone "db" (initState (some "abc"))
      (some (_serialize (.tuple [.str "auth", .str "xyz"])) ::
        [some (_serialize (.tuple [.str "ping"]))]) =
      [_serialize (.exc "Exception" [.str "Authentication failed"])] :=
  (C6_auth_mismatch engNone "db" "abc" "xyz"
    [some (_serialize (.tuple [.str "ping"]))] (by decide)).1

/-- Claim C7: decoding yields either a plain data value containing no
error value at all, or an error value of the one fixed generic type with
a single string message; bytes that are not valid JSON fail with a
decode error. No type named by the bytes is ever instantiated. -/
theorem C7_decode_safe (parsed : Option JVal) :
    (parsed = Option.none → _deserialize parsed = .error .jsonError) ∧
    (∀ v, _deserialize parsed = .ok v →
      (isExc v = false ∧ excFree v = true) ∨
      (∃ msg : String, v = .exc "Exception" [.str msg])) := by
  constructor
  · intro h; rw [h]; rfl
  · intro v hv
    match parsed with
    | Option.none => simp [_deserialize] at hv
    | some j => exact deserializeJson_ok_shape j v hv

/-- Witness for `C7_decode_safe` at concrete inputs: unparsable bytes,
and an error-tagged record naming an arbitrary type, which decodes to
the generic error value only. -/
theorem C7_decode_safe_witness :
    _deserialize Option.none = .error .jsonError ∧
    ((isExc (PyVal.exc "Exception" [.str "Evil: x"]) = false ∧
        excFree (PyVal.exc "Exception" [.str "Evil: x"]) = true) ∨
      (∃ msg : String,
        PyVal.exc "Exception" [.str "Evil: x"] = .exc "Exception" [.str msg])) :=
  ⟨(C7_decode_safe Option.none).1 rfl,
    (C7_decode_safe (some (.jobj [("_exception", .jbool true),
        ("type", .jstr "Evil"), ("args", .jarr [.jstr "x"])]))).2
      (.exc "Exception" [.str "Evil: x"]) rfl⟩

/-- Claim C9: `_send_receive` raises iff the decoded response is an error
value or the stream dropped; a drop surfaces as the connection-lost
error, and a non-error response is returned unchanged. -/
theorem C9_send_receive (j : JVal) (v : PyVal)
    (hdec : deserializeJson j = .ok v) :
    sendReceive .dropped = .connLost ∧
    raisesB (sendReceive (.frame (some j))) = isExc v ∧
    (isExc v = true → sendReceive (.frame (some j)) = .raisedErr v) ∧
    (isExc v = false → sendReceive (.frame (some j)) = .returned v) := by
  refine ⟨rfl, ?_, ?_, ?_⟩
  · simp only [sendReceive, _deserialize, hdec]
    by_cases hx : isExc v = true
    · simp [hx, raisesB]
    · simp only [Bool.not_eq_true] at hx
      simp [hx, raisesB]
  · intro hx; simp [sendReceive, _deserialize, hdec, hx]
  · intro hx; simp [sendReceive, _deserialize, hdec, hx]

/-- Witness for `C9_send_receive` at a concrete non-error response. -/
theorem C9_send_receive_witness :
    sendReceive .dropped = .connLost ∧
    sendReceive (.frame (some (_serialize (.str "pong")))) =
      .returned (.str "pong") :=
  ⟨(C9_send_receive (_serialize (.str "pong")) (.str "pong") rfl).1,
    (C9_send_receive (_serialize (.str "pong")) (.str "pong") rfl).2.2.2 rfl⟩


/-- Claim C5, counterexample: a frame whose bytes do not decode
terminates the handling task without any error reply, and a well-formed
`ping` following it on the same connection is never served — served
alone, the same `ping` frame draws `pong`. -/
theorem C5_counterexample :
    serverRun engNone "db" .ready
      [Option.none, some (_serialize (.tuple [.str "ping"]))] = [] ∧
    serverRun engNone "db" .ready
      [some (_serialize (.tuple [.str "ping"]))] = [_serialize (.str "pong")] :=
  ⟨rfl, rfl⟩

/-- Claim C5, amended: a received frame that decodes but is not a
recognized request (not a sequence, an empty sequence, or an unknown
method name) draws an error reply and the task keeps serving the rest of
the stream; a frame whose bytes do not decode terminates the task with
no reply. -/
theorem C5_malformed_amended (engine : EngineFn) (dbPath : String)
    (j : JVal) (v : PyVal) (fs : List (Option JVal))
    (hdec : deserializeJson j = .ok v) :
    (seqItems v = Option.none →
      serverRun engine dbPath .ready (some j :: fs) =
        _serialize (.exc "Exception" [.str "Invalid message format"]) ::
          serverRun engine dbPath .ready fs) ∧
    (seqItems v = some [] →
      serverRun engine dbPath .ready (some j :: fs) =
        _serialize (.exc "Exception" [.str "Invalid message format"]) ::
          serverRun engine dbPath .ready fs) ∧
    (∀ m0 ms, seqItems v = some (m0 :: ms) →
      isStrEq m0 "execute" = false → isStrEq m0 "target_database" = false →
      isStrEq m0 "ping" = false →
      serverRun engine dbPath .ready (some j :: fs) =
        _serialize (.exc "Exception" [.str ("Unknown method: " ++ pyStr m0)]) ::
          serverRun engine dbPath .ready fs) ∧
    serverRun engine dbPath .ready (Option.none :: fs) = [] := by
  refine ⟨?_, ?_, ?_, rfl⟩
  · intro hseq
    simp [serverRun, _deserialize, hdec, serverStep, dispatch, hseq]
  · intro hseq
    simp [serverRun, _deserialize, hdec, serverStep, dispatch, hseq]
  · intro m0 ms hseq h1 h2 h3
    simp [serverRun, _deserialize, hdec, serverStep, dispatch, hseq, h1, h2, h3]

/-- Witness for `C5_malformed_amended`: an integer message draws the
invalid-format error and the following `ping` is still served; an
unknown method name draws the unknown-method error. -/
theorem C5_malformed_amended_witness :
    serverRun engNone "db" .ready
      [some (.jint 5), some (_serialize (.tuple [.str "ping"]))] =
      [_serialize (.exc "Exception" [.str "Invalid message format"]),
        _serialize (.str "pong")] ∧
    serverRun engNone "db" .ready [some (.jarr [.jstr "frobnicate"])] =
      [_serialize (.exc "Exception" [.str "Unknown method: frobnicate"])] := by
  constructor
  · have h := (C5_malformed_amended engNone "db" (.jint 5) (.int 5)
      [some (_serialize (.tuple [.str "ping"]))] rfl).1 rfl
    rw [h]
    rfl
  · have h := ((C5_malformed_amended engNone "db" (.jarr [.jstr "frobnicate"])
      (.list [.str "frobnicate"]) [] rfl).2.2.1 (.str "frobnicate") [] rfl
      rfl rfl rfl)
    rw [h]
    rfl

/-- Claim C2: on a live connection, `execute` returns exactly the rows
the execute-and-fetch-all of the engine produced for that query on the same
database state, for scalar parameters and scalar-celled rows. -/
theorem C2_execute_agrees (engine : EngineFn) (dbPath query : String)
    (ps : List PyVal) (rows : List (List PyVal))
    (hps : ∀ c ∈ ps, isScalar c = true)
    (hrows : ∀ r ∈ rows, ∀ c ∈ r, isScalar c = true)
    (heng : engine (.str query) (if ps.isEmpty then .tuple [] else .list ps) =
      .ok rows) :
    clientExecute engine dbPath query (.list ps) =
      .returned (.list (rows.map PyVal.list)) := by
  have hrsup : allRTSupported (rows.map PyVal.list) = true :=
    allRTSupported_rows rows hrows
  have hrstr : stripTuplesList (rows.map PyVal.list) = rows.map PyVal.list :=
    stripTuplesList_rows rows hrows
  have hresp : _deserialize (some (_serialize (.list (rows.map PyVal.list)))) =
      .ok (.list (rows.map PyVal.list)) := by
    have h := roundtrip_ok (.list (rows.map PyVal.list))
      (by simpa [isRTSupported] using hrsup)
    simpa [stripTuples, hrstr] using h
  cases ps with
  | nil =>
    simp only [List.isEmpty_nil, if_true] at heng
    have hmsg : _deserialize (some (_serialize
        (.tuple [.str "execute", .str query, .tuple []]))) =
        .ok (.list [.str "execute", .str query, .list []]) :=
      roundtrip_ok (.tuple [.str "execute", .str query, .tuple []]) rfl
    simp [clientExecute, truthy, hmsg, serverStep, dispatch, seqItems,
      isStrEq, heng, sendReceive, hresp, isExc]
  | cons p ps2 =>
    have hp1 : isRTSupported p = true :=
      isRTSupported_of_scalar p (hps p (by simp))
    have hp2 : allRTSupported ps2 = true :=
      allRTSupported_of_scalars ps2 (fun c hc => hps c (by simp [hc]))
    have hq1 : stripTuples p = p := stripTuples_scalar p (hps p (by simp))
    have hq2 : stripTuplesList ps2 = ps2 :=
      stripTuplesList_scalars ps2 (fun c hc => hps c (by simp [hc]))
    have heng2 : engine (.str query) (.list (p :: ps2)) = .ok rows := by
      simpa using heng
    have hmsg : _deserialize (some (_serialize
        (.tuple [.str "execute", .str query, .list (p :: ps2)]))) =
        .ok (.list [.str "execute", .str query, .list (p :: ps2)]) := by
      have h := roundtrip_ok (.tuple [.str "execute", .str query,
        .list (p :: ps2)])
        (by simp [isRTSupported, allRTSupported, hp1, hp2])
      simpa [stripTuples, stripTuplesList, hq1, hq2] using h
    simp [clientExecute, truthy, hmsg, serverStep, dispatch, seqItems,
      isStrEq, heng2, sendReceive, hresp, isExc]

/-- Witness for `C2_execute_agrees` at a concrete engine and query. -/
theorem C2_execute_agrees_witness :
    clientExecute
      (fun q ps =>
        match q, ps with
        | .str "SELECT x FROM t", .list [.int 7] =>
          .ok [[.int 1, .str "a"], [.int 2, .none]]
        | _, _ => .error ("OperationalError", [.str "bad"]))
      "db" "SELECT x FROM t" (.list [.int 7]) =
      .returned (.list [.list [.int 1, .str "a"], .list [.int 2, .none]]) :=
  C2_execute_agrees _ "db" "SELECT x FROM t" [.int 7]
    [[.int 1, .str "a"], [.int 2, .none]]
    (by intro c hc; simp at hc; subst hc; rfl)
    (by intro r hr c hc; simp at hr; rcases hr with h | h <;> subst h <;>
      simp at hc <;> rcases hc with h | h <;> subst h <;> rfl)
    rfl

/-- Claim C10: a `connect` without an auth token that reaches a server
requiring authentication gets the authentication-required error as the
reply to its `target_database` probe, treats it as a database mismatch,
skips the slot, and spawns a fresh unauthenticated server for the same
database at the next free slot. -/
theorem C10_unauth_scan (s db : String) (engine : EngineFn) :
    exchange engine db (initState (some s)) (.tuple [.str "target_database"]) =
      (.ok (.exc "Exception" [.str "Exception: Authentication required"]),
        .closed) ∧
    attempt (some s) db engine Option.none db = .skip ∧
    connect Option.none db [.busy (some s) db engine, .free] =
      .spawnedNew 1 Option.none :=
  ⟨rfl, rfl, rfl⟩


/-- Claim C1, counterexample: against a server with no secret configured,
a `connect` that supplies an auth token does not succeed — the server
answers the handshake with an unknown-method error, which the client
raises out of `connect`. -/
theorem C1_counterexample :
    connect (some "x") "db" [.busy Option.none "db" engNone] =
      .raised (.exc "Exception" [.str "Exception: Unknown method: auth"]) ∧
    connect (some "x") "db" [.busy Option.none "db" engNone] ≠
      .connectedExisting 0 := by
  refine ⟨rfl, ?_⟩
  have hval : connect (some "x") "db" [.busy Option.none "db" engNone] =
      .raised (.exc "Exception" [.str "Exception: Unknown method: auth"]) := rfl
  rw [hval]
  intro h
  exact ConnOutcome.noConfusion h

/-- Helper: a matching token authenticates and the connection attempt
succeeds. -/
theorem connect_token_match (s db : String) (engine : EngineFn) :
    connect (some s) db [.busy (some s) db engine] = .connectedExisting 0 := by
  simp [connect, connectFrom, attempt, attemptTail, exchange, serverStep,
    dispatch, initState, seqItems, isStrEq, pyStr, _serialize, _deserialize,
    deserializeJson, pyToJson, pyToJsonList, jsonToPy, jsonToPyList, isExc]

/-- Helper: a mismatching token is answered with the authentication
failure and a close. -/
theorem exchange_auth_mismatch (s t db : String) (engine : EngineFn)
    (h : t ≠ s) :
    exchange engine db (.awaitingAuth s) (.tuple [.str "auth", .str t]) =
      (.ok (.exc "Exception" [.str "Exception: Authentication failed"]),
        .closed) := by
  have h1 : _deserialize (some (_serialize (.tuple [.str "auth", .str t]))) =
      .ok (.list [.str "auth", .str t]) := rfl
  have h2 : serverStep engine db (.awaitingAuth s) (.list [.str "auth", .str t]) =
      (some (.exc "Exception" [.str "Authentication failed"]), .closed) := by
    simp [serverStep, seqItems, isStrEq, pyStr, h]
  have h3 : _deserialize (some (_serialize
      (.exc "Exception" [.str "Authentication failed"]))) =
      .ok (.exc "Exception" [.str "Exception: Authentication failed"]) := rfl
  simp [exchange, h1, h2, h3]

/-- Helper: a mismatching token draws the authentication-failed error,
raised out of `connect`. -/
theorem connect_token_mismatch (s t db : String) (engine : EngineFn)
    (h : t ≠ s) :
    connect (some t) db [.busy (some s) db engine] =
      .raised (.exc "Exception" [.str "Exception: Authentication failed"]) := by
  simp only [connect, connectFrom, attempt, initState]
  rw [exchange_auth_mismatch s t db engine h]
  rfl

/-- Claim C1, amended: with a supplied token T against a server with
secret S serving the wanted database, `connect` succeeds iff T equals S
(a mismatch raises the authentication-failed error); with no secret
configured, `connect` succeeds when the client supplies no token, but a
supplied token is rejected with an unknown-method error raised out of
`connect`. -/
theorem C1_auth_amended (s t db : String) (engine : EngineFn) :
    (connect (some t) db [.busy (some s) db engine] =
      .connectedExisting 0 ↔ t = s) ∧
    (t ≠ s → connect (some t) db [.busy (some s) db engine] =
      .raised (.exc "Exception" [.str "Exception: Authentication failed"])) ∧
    connect Option.none db [.busy Option.none db engine] =
      .connectedExisting 0 ∧
    connect (some t) db [.busy Option.none db engine] =
      .raised (.exc "Exception" [.str "Exception: Unknown method: auth"]) := by
  refine ⟨⟨?_, ?_⟩, connect_token_mismatch s t db engine, ?_, rfl⟩
  · intro hconn
    by_cases hts : t = s
    · exact hts
    · rw [connect_token_mismatch s t db engine hts] at hconn
      exact ConnOutcome.noConfusion hconn
  · intro hts
    subst hts
    exact connect_token_match t db engine
  · simp [connect, connectFrom, attempt, attemptTail, exchange, serverStep,
      dispatch, initState, seqItems, isStrEq, pyStr, _serialize, _deserialize,
      deserializeJson, pyToJson, pyToJsonList, jsonToPy, jsonToPyList, isExc]

/-- Witness for `C1_auth_amended` at concrete tokens. -/
theorem C1_auth_amended_witness :
    connect (some "abc") "db" [.busy (some "abc") "db" engNone] =
      .connectedExisting 0 ∧
    connect (some "xyz") "db" [.busy (some "abc") "db" engNone] =
      .raised (.exc "Exception" [.str "Exception: Authentication failed"]) :=
  ⟨(C1_auth_amended "abc" "abc" "db" engNone).1.mpr rfl,
    (C1_auth_amended "abc" "xyz" "db" engNone).2.1 (by decide)⟩

/-- Claim C4, counterexample: a poll attempt that connects to a server
reporting a different database raises the serves-different-database
error immediately, with no wall-clock budget consumed, even though the
very next attempt in the trace would have reached the wanted database. -/
theorem C4_counterexample :
    pollFrom Option.none "want" 10
      [.busy Option.none "other" engNone, .busy Option.none "want" engNone]
      0 (1 / 10) = .raisedWrongDb (.str "other") ∧
    pollFrom Option.none "want" 10
      [.busy Option.none "other" engNone, .busy Option.none "want" engNone]
      0 (1 / 10) ≠ .spawnTimeout 0 := by
  constructor
  · rfl
  · have hval : pollFrom Option.none "want" 10
        [.busy Option.none "other" engNone, .busy Option.none "want" engNone]
        0 (1 / 10) = .raisedWrongDb (.str "other") := rfl
    rw [hval]
    intro h
    exact PollOutcome.noConfusion h

/-- Claim C4, amended: during post-spawn polling, only attempts that fail
to connect are retried; an attempt that connects but finds a different
database identity raises immediately, regardless of the remaining
wall-clock budget, and exhausting the budget yields the spawn-timeout
failure. -/
theorem C4_poll_amended (dbPath dbName : String) (engine : EngineFn)
    (rest : List PortState) (total wait : ℚ)
    (hbudget : total < 10) (hne : dbPath ≠ dbName) :
    pollFrom Option.none dbName 10 (.busy Option.none dbPath engine :: rest)
      total wait = .raisedWrongDb (.str dbPath) ∧
    (∀ (token : Option String) (trace : List PortState) (q w : ℚ),
      10 ≤ q → pollFrom token dbName 10 trace q w = .spawnTimeout q) := by
  constructor
  · rw [pollFrom.eq_def]
    rw [if_pos hbudget]
    have hx : exchange engine dbPath (initState Option.none)
        (.tuple [.str "target_database"]) = (.ok (.str dbPath), .ready) := rfl
    simp only [hx]
    simp [isStrEq, hne]
  · intro token trace q w hq
    rw [pollFrom.eq_def]
    rw [if_neg (not_lt.mpr hq)]

/-- Witness for `C4_poll_amended` at concrete values. -/
theorem C4_poll_amended_witness :
    pollFrom Option.none "want" 10 [.busy Option.none "other" engNone]
      0 (1 / 10) = .raisedWrongDb (.str "other") ∧
    pollFrom Option.none "want" 10 [] 10 (1 / 10) = .spawnTimeout 10 :=
  ⟨(C4_poll_amended "other" "want" engNone [] 0 (1 / 10) (by norm_num)
      (by decide)).1,
    (C4_poll_amended "other" "want" engNone [] 0 (1 / 10) (by norm_num)
      (by decide)).2 Option.none [] 10 (1 / 10) (le_refl 10)⟩

end NetSQLite
